import Mathlib

/-!
Shallow embedding of the Fusion Sniper Bot core (src/main_bot.py,
src/modules/risk_manager.py, src/modules/strategy.py) and proofs about it.

Prices, indicator values and currency amounts are modelled as rationals.
Calls into the MetaTrader5 gateway, the `ta` indicator library, Telegram and
the statistics sink are modelled as explicit inputs (environments): the bot
code reads their results and we embed exactly what the bot does with them.
Python dict/config lookups with defaults are modelled as structure fields
(the field holds whatever value the lookup produced).
-/

namespace FusionBot

/-- Trade direction, as the strings "BUY" / "SELL" (and MT5 position type
0 / 1) are used throughout the source. -/
inductive Dir where
  | BUY : Dir
  | SELL : Dir
deriving DecidableEq, Repr

/-- Python `abs(x)`. -/
def pyabs (x : ℚ) : ℚ := if x < 0 then -x else x

/-- Python `max(a, b)`: returns the first argument on ties. -/
def pymax (a b : ℚ) : ℚ := if b > a then b else a

/-- Python `min(a, b)`: returns the first argument on ties. -/
def pymin (a b : ℚ) : ℚ := if b < a then b else a

/-! ## Risk & Stop Calculator (src/modules/risk_manager.py) -/

/-- The TRADING-section config values read by
`RiskManager.calculate_atr_based_stops` (risk_manager.py lines 104-106). -/
structure TradingConfig where
  stop_loss_atr_multiple : ℚ
  take_profit_atr_multiple : ℚ
deriving DecidableEq, Repr

/-- `RiskManager.calculate_atr_based_stops` (risk_manager.py lines 100-122).
Returns the (stop_loss, take_profit) pair.  The `except` branch returning
`(0, 0)` is unreachable in the embedding because the config lookup cannot
fail; the arithmetic path performs no check on `atr` at all. -/
def calculate_atr_based_stops (cfg : TradingConfig) (entry_price atr : ℚ)
    (direction : Dir) : ℚ × ℚ :=
  let sl_distance := atr * cfg.stop_loss_atr_multiple
  let tp_distance := atr * cfg.take_profit_atr_multiple
  match direction with
  | .BUY => (entry_price - sl_distance, entry_price + tp_distance)
  | .SELL => (entry_price + sl_distance, entry_price - tp_distance)

/-- `RiskManager.validate_trade` (risk_manager.py lines 124-152). -/
def validate_trade (order_type : Dir) (price sl tp : ℚ) : Bool :=
  if price ≤ 0 ∨ sl ≤ 0 ∨ tp ≤ 0 then false
  else
    match order_type with
    | .BUY => if sl ≥ price then false else if tp ≤ price then false else true
    | .SELL => if sl ≤ price then false else if tp ≥ price then false else true

/-! ## Broker-minimum repair step inside `open_trade`
(src/main_bot.py lines 1001-1019) -/

/-- The stop/target repair step of `FusionSniperBot.open_trade`
(main_bot.py lines 1004-1019): given the entry `price`, the previously
computed `sl` and `tp`, the broker minimum distance and the direction,
returns the adjusted (sl, tp).  Note that both guards test the distances
computed from the ORIGINAL sl/tp (lines 1004-1005), and that the sl-branch
also rewrites tp to `price ± 2·min_distance` (lines 1010, 1013). -/
def repair_for_broker_minimum (price sl tp min_distance_price : ℚ)
    (order_type : Dir) : ℚ × ℚ :=
  let sl_distance := pyabs (price - sl)
  let tp_distance := pyabs (tp - price)
  let step1 : ℚ × ℚ :=
    if sl_distance < min_distance_price then
      match order_type with
      | .BUY => (price - min_distance_price, price + min_distance_price * 2)
      | .SELL => (price + min_distance_price, price - min_distance_price * 2)
    else (sl, tp)
  let step2 : ℚ × ℚ :=
    if tp_distance < min_distance_price then
      match order_type with
      | .BUY => (step1.1, price + pymax tp_distance min_distance_price)
      | .SELL => (step1.1, price - pymax tp_distance min_distance_price)
    else step1
  step2

/-! ## Cooldown check (src/main_bot.py lines 820-832, config lines 94-97 and 123-125) -/

/-- `last_trade_type` values assigned by the bot ('normal' / 'scalp'). -/
inductive TradeType where
  | normal : TradeType
  | scalp : TradeType
deriving DecidableEq, Repr

/-- The attributes read by `is_in_cooldown`, as loaded in `__init__`:
`trade_cooldown` from TRADING.trade_cooldown_seconds (line 97),
`volatility_enabled` (line 120), `scalp_cooldown` / `normal_cooldown` from
the volatility_detection section (lines 124-125). -/
structure CooldownConfig where
  trade_cooldown : ℚ
  volatility_enabled : Bool
  scalp_cooldown : ℚ
  normal_cooldown : ℚ
deriving DecidableEq, Repr

/-- The mutable cooldown state (`last_trade_time`, `last_trade_type`),
with time as epoch seconds. -/
structure CooldownState where
  last_trade_time : Option ℚ
  last_trade_type : Option TradeType
deriving DecidableEq, Repr

/-- `FusionSniperBot.is_in_cooldown` (main_bot.py lines 820-832), with
`now` the current wall-clock time in epoch seconds.  `int(...)` truncation
coincides with the floor here because its argument is positive. -/
def is_in_cooldown (cfg : CooldownConfig) (st : CooldownState) (now : ℚ) :
    Bool × ℤ :=
  match st.last_trade_time with
  | none => (false, 0)
  | some t =>
    let cooldown_seconds :=
      if cfg.volatility_enabled ∧ st.last_trade_type = some TradeType.scalp then
        cfg.scalp_cooldown
      else cfg.normal_cooldown
    let time_since_last := now - t
    if time_since_last < cooldown_seconds then
      (true, ⌊cooldown_seconds - time_since_last⌋)
    else (false, 0)

/-! ## Daily profit / loss pause check (src/main_bot.py lines 651-817) -/

/-- An MT5 deal record, restricted to the fields read by
`check_daily_profit`: `magic`, `entry` (1 = DEAL_ENTRY_OUT), `profit`,
`commission`, `swap`. -/
structure Deal where
  magic : ℤ
  entry : ℤ
  profit : ℚ
  commission : ℚ
  swap : ℚ
deriving DecidableEq, Repr

/-- Configuration read by `check_daily_profit`:
`daily_profit_target` (TRADING.daily_profit_target, line 108),
`magic_number`, RISK.max_daily_loss (line 716), whether the account
currency is known and differs from RISK.max_daily_loss_currency
(lines 720-732), and RISK.loss_limit_by_equity (line 778). -/
structure DailyConfig where
  daily_profit_target : ℚ
  magic_number : ℤ
  max_daily_loss : ℚ
  currency_differs : Bool
  loss_limit_by_equity : Bool
deriving DecidableEq, Repr

/-- Result of the FX-quote lookup for loss-cap conversion (lines 735-751):
a mid quote for the SRC+DST pair, a mid quote for the inverted DST+SRC
pair, or no convertible quote found. -/
inductive FxQuote where
  | direct (rate : ℚ) : FxQuote
  | inverse (rate : ℚ) : FxQuote
  | unavailable : FxQuote
deriving DecidableEq, Repr

/-- Daily-check state: the pause flag `daily_target_reached`, the day's
starting equity, and `last_target_check_date` (the local date, as an
abstract integer day number). -/
structure DailyState where
  daily_target_reached : Bool
  starting_equity_today : Option ℚ
  last_target_check_date : ℤ
deriving DecidableEq, Repr

/-- Per-call environment of `check_daily_profit`: the current local date,
the MT5 deal history for today (None models a failed query), the FX-quote
lookup outcome, and the account (balance, equity) snapshot (None models
`mt5.account_info()` raising / unusable, which the code catches and
skips). -/
structure DailyEnv where
  current_date : ℤ
  deals : Option (List Deal)
  fx : FxQuote
  account : Option (ℚ × ℚ)
deriving Repr

/-- The trailing daily-profit-target comparison of `check_daily_profit`
(main_bot.py lines 804-814), reached when neither loss check fired. -/
def daily_target_tail (cfg : DailyConfig) (st : DailyState) (net_profit : ℚ) :
    Bool × DailyState :=
  if net_profit ≥ cfg.daily_profit_target then
    (true, { st with daily_target_reached := true })
  else (false, st)

/-- The daily-loss-limit cap expressed in account currency
(main_bot.py lines 727-762): the configured cap, FX-converted when the
account currency differs and a quote is found, else the raw number. -/
def daily_loss_cap (cfg : DailyConfig) (env : DailyEnv) : ℚ :=
  if cfg.currency_differs then
    match env.fx with
    | .direct rate => cfg.max_daily_loss * rate
    | .inverse rate => cfg.max_daily_loss / rate
    | .unavailable => cfg.max_daily_loss
  else cfg.max_daily_loss

/-- `FusionSniperBot.check_daily_profit` (main_bot.py lines 651-817) as a
state transformer.  Returns (paused-this-cycle, new state). -/
def check_daily_profit (cfg : DailyConfig) (st : DailyState) (env : DailyEnv) :
    Bool × DailyState :=
  if cfg.daily_profit_target ≤ 0 then (false, st)
  else
    let st1 :=
      if env.current_date ≠ st.last_target_check_date then
        { daily_target_reached := false, starting_equity_today := none,
          last_target_check_date := env.current_date }
      else st
    if st1.daily_target_reached then (true, st1)
    else
      match env.deals with
      | none => (false, st1)
      | some deals =>
        let mine := deals.filter (fun d => d.magic = cfg.magic_number)
        let total_commission := (mine.map (fun d => pyabs d.commission)).sum
        let exits := mine.filter (fun d => d.entry = 1)
        let total_profit := (exits.map (fun d => d.profit)).sum
        let total_swap := (exits.map (fun d => d.swap)).sum
        let net_profit := total_profit - total_commission + total_swap
        if cfg.max_daily_loss > 0 then
          let cap := daily_loss_cap cfg env
          if net_profit ≤ -cap then
            (true, { st1 with daily_target_reached := true })
          else if cfg.loss_limit_by_equity then
            match env.account with
            | none => daily_target_tail cfg st1 net_profit
            | some (balance, equity) =>
              let starting_equity := st1.starting_equity_today.getD balance
              let st2 := { st1 with starting_equity_today := some starting_equity }
              let drawdown := starting_equity - equity
              if drawdown ≥ cap then
                (true, { st2 with daily_target_reached := true })
              else daily_target_tail cfg st2 net_profit
          else daily_target_tail cfg st1 net_profit
        else daily_target_tail cfg st1 net_profit

/-! ## Position management: break-even and chandelier trailing
(src/main_bot.py lines 1133-1215) -/

/-- Config multiples read by the management functions (loaded in
`__init__`, main_bot.py lines 74-81). -/
structure ManageConfig where
  breakeven_trigger_multiple : ℚ
  breakeven_lock_multiple : ℚ
  trail_activation_multiple : ℚ
  trailing_atr_multiple : ℚ
deriving DecidableEq, Repr

/-- A price tick from `mt5.symbol_info_tick`. -/
structure Tick where
  bid : ℚ
  ask : ℚ
deriving DecidableEq, Repr

/-- The fields of a gateway-reported open position read by the
management functions (`position.type` 0 is modelled as `Dir.BUY`). -/
structure PositionInfo where
  ticket : ℕ
  ptype : Dir
  price_open : ℚ
  sl : ℚ
  tp : ℚ
deriving DecidableEq, Repr

/-- Per-call gateway environment for a management step: the tick (None
models `symbol_info_tick` failing) and whether the SLTP `order_send`
inside `modify_position` returns a result with retcode DONE. -/
structure ManageEnv where
  tick : Option Tick
  modify_succeeds : Bool
deriving DecidableEq, Repr

/-- A tracked position record, `self.tracked_positions[ticket]`
(main_bot.py lines 857-866). -/
structure TrackedPos where
  entry : ℚ
  sl : ℚ
  tp : ℚ
  ptype : Dir
  volume : ℚ
  open_time : ℤ
  entry_atr : ℚ
  breakeven_applied : Bool
deriving DecidableEq, Repr

/-- `FusionSniperBot.modify_position` (main_bot.py lines 1200-1215):
sends a TRADE_ACTION_SLTP request and reports whether the gateway
acknowledged it (result non-null with retcode DONE). -/
def modify_position (env : ManageEnv) (_ticket : ℕ) (_new_sl _new_tp : ℚ) :
    Bool :=
  env.modify_succeeds

/-- `FusionSniperBot.apply_atr_breakeven` (main_bot.py lines 1133-1168).
Returns the updated tracked record together with the modification attempt:
`some (new_sl, ok)` when `modify_position` was called with that stop and
returned `ok`, `none` when no modification was attempted. -/
def apply_atr_breakeven (cfg : ManageConfig) (env : ManageEnv)
    (position : PositionInfo) (pos_data : TrackedPos) (entry_atr : ℚ) :
    TrackedPos × Option (ℚ × Bool) :=
  if pos_data.breakeven_applied then (pos_data, none)
  else
    match env.tick with
    | none => (pos_data, none)
    | some tick =>
      let current_price :=
        match position.ptype with
        | .BUY => tick.bid
        | .SELL => tick.ask
      let entry_price := position.price_open
      let trigger_distance := entry_atr * cfg.breakeven_trigger_multiple
      let lock_distance := entry_atr * cfg.breakeven_lock_multiple
      match position.ptype with
      | .BUY =>
        if current_price ≥ entry_price + trigger_distance then
          let new_sl := entry_price + lock_distance
          if new_sl > position.sl then
            if modify_position env position.ticket new_sl position.tp then
              ({ pos_data with breakeven_applied := true }, some (new_sl, true))
            else (pos_data, some (new_sl, false))
          else (pos_data, none)
        else (pos_data, none)
      | .SELL =>
        if current_price ≤ entry_price - trigger_distance then
          let new_sl := entry_price - lock_distance
          if new_sl < position.sl then
            if modify_position env position.ticket new_sl position.tp then
              ({ pos_data with breakeven_applied := true }, some (new_sl, true))
            else (pos_data, some (new_sl, false))
          else (pos_data, none)
        else (pos_data, none)

/-- `FusionSniperBot.apply_chandelier_trailing` (main_bot.py lines
1170-1198).  Returns `some (new_sl, ok)` when `modify_position` was called
with that candidate stop and returned `ok`, else `none`.  (The function
never touches the tracked record.) -/
def apply_chandelier_trailing (cfg : ManageConfig) (env : ManageEnv)
    (position : PositionInfo) (entry_atr : ℚ) : Option (ℚ × Bool) :=
  match env.tick with
  | none => none
  | some tick =>
    let current_price :=
      match position.ptype with
      | .BUY => tick.bid
      | .SELL => tick.ask
    let entry_price := position.price_open
    let activation_distance := entry_atr * cfg.trail_activation_multiple
    let trailing_distance := entry_atr * cfg.trailing_atr_multiple
    match position.ptype with
    | .BUY =>
      if current_price ≥ entry_price + activation_distance then
        let new_sl := current_price - trailing_distance
        if new_sl > position.sl ∧ new_sl < current_price then
          some (new_sl, modify_position env position.ticket new_sl position.tp)
        else none
      else none
    | .SELL =>
      if current_price ≤ entry_price - activation_distance then
        let new_sl := current_price + trailing_distance
        if new_sl < position.sl ∧ new_sl > current_price then
          some (new_sl, modify_position env position.ticket new_sl position.tp)
        else none
      else none

/-- Break-even applications over a position's lifetime: the tracked record
threads through successive cycles (each cycle supplies its own gateway
environment, position snapshot and entry ATR).  Returns the final record
and the number of cycles in which a break-even modification succeeded. -/
def breakeven_run (cfg : ManageConfig) (pos_data : TrackedPos) :
    List (ManageEnv × PositionInfo × ℚ) → TrackedPos × ℕ
  | [] => (pos_data, 0)
  | (env, position, entry_atr) :: rest =>
    let step := apply_atr_breakeven cfg env position pos_data entry_atr
    let tail := breakeven_run cfg step.1 rest
    (tail.1,
      (match step.2 with
       | some (_, true) => 1
       | _ => 0) + tail.2)

/-- The gateway-side stop after one chandelier cycle: a successfully
acknowledged SLTP modification replaces the position's stop, anything else
leaves it. -/
def trailing_next_sl (cfg : ManageConfig) (env : ManageEnv)
    (position : PositionInfo) (entry_atr : ℚ) : ℚ :=
  match apply_chandelier_trailing cfg env position entry_atr with
  | some (s, true) => s
  | _ => position.sl

/-- The gateway-side stop of a fixed position after successive chandelier
cycles (each with its own environment and entry ATR), starting from
stop `sl0`. -/
def trailing_run (cfg : ManageConfig) (base : PositionInfo) (sl0 : ℚ) :
    List (ManageEnv × ℚ) → ℚ
  | [] => sl0
  | (env, entry_atr) :: rest =>
    trailing_run cfg base
      (trailing_next_sl cfg env { base with sl := sl0 } entry_atr) rest

/-! ## Reconciliation and closure handling
(src/main_bot.py lines 834-926, 943-963) -/

/-- An MT5 deal from `history_deals_get(position=ticket)`, restricted to
the fields read by `handle_position_closure`; `comment_scalp` models
`deal.comment == "scalp_quick_profit"`. -/
structure DealRec where
  entry : ℤ
  profit : ℚ
  price : ℚ
  comment_scalp : Bool
deriving DecidableEq, Repr

/-- A gateway-reported open position as consumed by
`update_tracked_positions`. -/
structure GatewayPos where
  ticket : ℕ
  magic : ℤ
  price_open : ℚ
  sl : ℚ
  tp : ℚ
  ptype : Dir
  volume : ℚ
  time : ℤ
deriving DecidableEq, Repr

/-- Gateway environment for one reconciliation pass: the open-position
snapshot (None models `positions_get` failing), the per-ticket deal
history, and the current ATR (None models `calculate_atr` failing). -/
structure ReconEnv where
  positions : Option (List GatewayPos)
  deals_for : ℕ → Option (List DealRec)
  atr : Option ℚ

/-- Bot identity/config used during reconciliation. -/
structure ReconConfig where
  magic_number : ℤ
  pip_size : ℚ
deriving DecidableEq, Repr

/-- Exit-reason classification produced by `determine_close_reason`, plus
the scalp tag produced in `handle_position_closure`. -/
inductive CloseReason where
  | stopLossHit : CloseReason
  | takeProfitHit : CloseReason
  | trailingStop : CloseReason
  | manualClose : CloseReason
  | quickScalp : CloseReason
deriving DecidableEq, Repr

/-- `FusionSniperBot.determine_close_reason` (main_bot.py lines 943-963). -/
def determine_close_reason (pip_size exit_price sl_price tp_price : ℚ)
    (direction : Dir) : CloseReason :=
  let tolerance := pip_size * 2
  if sl_price > 0 ∧ pyabs (exit_price - sl_price) < tolerance then .stopLossHit
  else if tp_price > 0 ∧ pyabs (exit_price - tp_price) < tolerance then
    .takeProfitHit
  else
    match direction with
    | .BUY =>
      if sl_price > 0 ∧ exit_price > sl_price ∧ exit_price < tp_price then
        .trailingStop
      else .manualClose
    | .SELL =>
      if sl_price > 0 ∧ exit_price < sl_price ∧ exit_price > tp_price then
        .trailingStop
      else .manualClose

/-- The exit deal selected by the loop at main_bot.py lines 882-885: the
LAST deal with `entry == 1`. -/
def last_exit_deal (deals : List DealRec) : Option DealRec :=
  deals.foldl (fun acc d => if d.entry = 1 then some d else acc) none

/-- A closure event: one `notify_trade_closed` notification (main_bot.py
lines 900-908), carrying the data the bot sends. -/
structure ClosureEvent where
  ticket : ℕ
  direction : Dir
  exit_price : ℚ
  profit : ℚ
  reason : CloseReason
deriving DecidableEq, Repr

/-- `FusionSniperBot.handle_position_closure` (main_bot.py lines 870-926):
returns the closure event it emits, or `none` when it returns early
(ticket untracked, deal history unavailable/empty, or no exit deal). -/
def handle_position_closure (cfg : ReconConfig) (env : ReconEnv)
    (tracked : List (ℕ × TrackedPos)) (ticket : ℕ) : Option ClosureEvent :=
  match tracked.lookup ticket with
  | none => none
  | some pos_data =>
    match env.deals_for ticket with
    | none => none
    | some deals =>
      if deals.isEmpty then none
      else
        match last_exit_deal deals with
        | none => none
        | some exit_deal =>
          let direction := pos_data.ptype
          let reason :=
            if exit_deal.comment_scalp then CloseReason.quickScalp
            else
              determine_close_reason cfg.pip_size exit_deal.price pos_data.sl
                pos_data.tp direction
          some
            { ticket := ticket, direction := direction,
              exit_price := exit_deal.price, profit := exit_deal.profit,
              reason := reason }

/-- Adoption of a newly reported ticket (main_bot.py lines 851-866):
`entry_atr` falls back to 0 when `calculate_atr` returns None. -/
def adopt_position (env : ReconEnv) (p : GatewayPos) : TrackedPos :=
  { entry := p.price_open, sl := p.sl, tp := p.tp, ptype := p.ptype,
    volume := p.volume, open_time := p.time,
    entry_atr := env.atr.getD 0, breakeven_applied := false }

/-- `FusionSniperBot.update_tracked_positions` (main_bot.py lines 834-868):
one reconciliation pass over the tracked map (an association list keyed by
ticket).  Returns the new tracked map and the closure events emitted. -/
def update_tracked_positions (cfg : ReconConfig) (env : ReconEnv)
    (tracked : List (ℕ × TrackedPos)) :
    List (ℕ × TrackedPos) × List ClosureEvent :=
  let current_positions :=
    (env.positions.getD []).filter (fun p => p.magic = cfg.magic_number)
  let current_tickets := current_positions.map (fun p => p.ticket)
  let closed_tickets :=
    (tracked.map Prod.fst).filter (fun t => t ∉ current_tickets)
  let events :=
    closed_tickets.filterMap (fun t => handle_position_closure cfg env tracked t)
  let tracked1 := tracked.filter (fun e => e.1 ∉ closed_tickets)
  let tracked2 :=
    current_positions.foldl
      (fun acc p =>
        if (acc.lookup p.ticket).isSome then acc
        else acc ++ [(p.ticket, adopt_position env p)])
      tracked1
  (tracked2, events)

/-- Whether the deal history the gateway returns for `ticket` is one from
which `handle_position_closure` can emit its closure event: the query
succeeded, returned at least one deal, and an exit deal is among them. -/
def closure_event_available (env : ReconEnv) (ticket : ℕ) : Bool :=
  match env.deals_for ticket with
  | none => false
  | some deals => !deals.isEmpty && (last_exit_deal deals).isSome

/-! ## Indicator & Signal Engine (src/modules/strategy.py)

The `ta` library indicator calls (EMA, RSI, ADX, Stochastic, Bollinger;
strategy.py lines 500-541) are external-library computations and are
modelled as an environment input `IndicatorSnapshot` holding the values
the strategy reads back (`.iloc[-1]` of each series).  Everything the
strategy itself computes is embedded. -/

/-- Higher-timeframe bias / SMC zone direction, as the strings "BULL",
"BEAR", "NEUTRAL". -/
inductive Bias where
  | BULL : Bias
  | BEAR : Bias
  | NEUTRAL : Bias
deriving DecidableEq, Repr

/-- Condition labels appended to `conditions_detail`
(strategy.py lines 547-593 and 416-458). -/
inductive Tag where
  | EMA_CROSS : Tag
  | ABOVE_TREND : Tag
  | BELOW_TREND : Tag
  | RSI_OVERSOLD : Tag
  | RSI_OVERBOUGHT : Tag
  | STRONG_TREND : Tag
  | STOCH_BULLISH : Tag
  | STOCH_BEARISH : Tag
  | SMC_BIAS_BULL : Tag
  | SMC_BIAS_BEAR : Tag
  | FVG_RETEST : Tag
  | FVG_REJECTION_CLOSE_OUT : Tag
  | FVG_ZONE (low high : ℚ) : Tag
  | TIME (t : ℤ) : Tag
deriving DecidableEq, Repr

/-- A price bar; `time` is epoch seconds (the MT5 rates field, which the
strategy converts to a UTC timestamp). -/
structure Candle where
  time : ℤ
  op : ℚ
  hi : ℚ
  lo : ℚ
  cl : ℚ
deriving DecidableEq, Repr

/-- Trend-filter scope string after lowercasing: "always", one of
{"window", "time_window", "session"}, or anything else. -/
inductive Scope where
  | always : Scope
  | window : Scope
  | other : Scope
deriving DecidableEq, Repr

/-- The strategy configuration attributes read by the embedded code paths
(loaded in `FusionStrategy.__init__`, strategy.py lines 34-121). -/
structure StrategyConfig where
  min_conditions : ℤ
  trend_filter_enabled : Bool
  trend_filter_scope : Scope
  window_weekday : ℤ
  window_start_hour : ℤ
  window_end_hour : ℤ
  require_trend_flag : Bool
  buy_extra_conditions : ℤ
  sell_extra_conditions : ℤ
  rsi_oversold : ℚ
  rsi_overbought : ℚ
  adx_threshold : ℚ
  stoch_oversold : ℚ
  stoch_overbought : ℚ
  smc_enabled : Bool
  smc_only : Bool
  fvg_enabled : Bool
  fvg_max_age_bars : ℤ
  fvg_min_size_atr_mult : ℚ
  fvg_wick_body_ratio : ℚ
  fvg_require_candle_direction : Bool
deriving DecidableEq, Repr

/-- The last values of the `ta` indicator series read at strategy.py lines
533-541 (environment input; a library NaN compares false against
everything, which is representable here by equal values on the
paired >,< tests). -/
structure IndicatorSnapshot where
  ema_fast : ℚ
  ema_slow : ℚ
  ema_trend : ℚ
  rsi : ℚ
  adx : ℚ
  stoch_k : ℚ
  stoch_d : ℚ
  bb_upper : ℚ
  bb_lower : ℚ
deriving DecidableEq, Repr

/-- A signal dict as returned by `analyze`. -/
structure Signal where
  side : Dir
  confidence : ℚ
  conditions_met : ℤ
  conditions_detail : List Tag
deriving DecidableEq, Repr

/-- Weekday of a UTC epoch-second timestamp, Monday = 0 (epoch day 0,
1970-01-01, was a Thursday = 3).  Mirrors `pd.Timestamp.weekday()`. -/
def ts_weekday (t : ℤ) : ℤ := (t.fdiv 86400 + 3) % 7

/-- Hour-of-day of a UTC epoch-second timestamp, mirrors
`pd.Timestamp.hour`. -/
def ts_hour (t : ℤ) : ℤ := (t.emod 86400).fdiv 3600

/-- `FusionStrategy._is_trend_filter_window_active` (strategy.py lines
126-148). -/
def is_trend_filter_window_active (cfg : StrategyConfig)
    (current_time : Option ℤ) : Bool :=
  match current_time with
  | none => false
  | some ts =>
    let weekday := ts_weekday ts
    let hour := ts_hour ts
    if weekday ≠ cfg.window_weekday then false
    else if cfg.window_start_hour ≤ cfg.window_end_hour then
      decide (cfg.window_start_hour ≤ hour ∧ hour < cfg.window_end_hour)
    else decide (hour ≥ cfg.window_start_hour ∨ hour < cfg.window_end_hour)

/-- `FusionStrategy._is_trend_filter_active` (strategy.py lines 150-160). -/
def is_trend_filter_active (cfg : StrategyConfig) (current_time : Option ℤ) :
    Bool :=
  if ¬cfg.trend_filter_enabled then false
  else
    match cfg.trend_filter_scope with
    | .always => true
    | .window => is_trend_filter_window_active cfg current_time
    | .other => false

/-- Membership in `self.trend_flags = {ABOVE_TREND, BELOW_TREND,
STRONG_TREND}` (strategy.py line 45). -/
def is_trend_flag : Tag → Bool
  | .ABOVE_TREND => true
  | .BELOW_TREND => true
  | .STRONG_TREND => true
  | _ => false

/-- `FusionStrategy._is_signal_allowed` (strategy.py lines 162-184). -/
def is_signal_allowed (cfg : StrategyConfig) (side : Dir)
    (current_time : Option ℤ) (conditions_met : ℤ)
    (conditions_detail : List Tag) : Bool :=
  let active := is_trend_filter_active cfg current_time
  let min_required :=
    if active then
      match side with
      | .BUY => cfg.min_conditions + max 0 cfg.buy_extra_conditions
      | .SELL => cfg.min_conditions + max 0 cfg.sell_extra_conditions
    else cfg.min_conditions
  let require_flag := active ∧ cfg.require_trend_flag
  if conditions_met < min_required then false
  else if require_flag ∧ ¬conditions_detail.any is_trend_flag then false
  else true

/-- Accumulate one boolean rule: bump the count and append the tag when
the rule holds (the `if cond: conditions += 1; details.append(tag)`
pattern of strategy.py lines 551-593). -/
def add_condition (cond : Bool) (tag : Tag) (acc : ℤ × List Tag) :
    ℤ × List Tag :=
  if cond then (acc.1 + 1, acc.2 ++ [tag]) else acc

/-- The independent BUY evaluation (strategy.py lines 548-569) given the
indicator snapshot and the last close. -/
def buy_conditions (cfg : StrategyConfig) (snap : IndicatorSnapshot)
    (current_price : ℚ) : ℤ × List Tag :=
  add_condition
      (decide (snap.stoch_k < cfg.stoch_oversold ∧ snap.stoch_k > snap.stoch_d))
      .STOCH_BULLISH
    (add_condition (decide (snap.adx > cfg.adx_threshold)) .STRONG_TREND
      (add_condition (decide (snap.rsi < cfg.rsi_oversold)) .RSI_OVERSOLD
        (add_condition (decide (current_price > snap.ema_trend)) .ABOVE_TREND
          (add_condition (decide (snap.ema_fast > snap.ema_slow)) .EMA_CROSS
            (0, [])))))

/-- The independent SELL evaluation (strategy.py lines 572-593). -/
def sell_conditions (cfg : StrategyConfig) (snap : IndicatorSnapshot)
    (current_price : ℚ) : ℤ × List Tag :=
  add_condition
      (decide
        (snap.stoch_k > cfg.stoch_overbought ∧ snap.stoch_k < snap.stoch_d))
      .STOCH_BEARISH
    (add_condition (decide (snap.adx > cfg.adx_threshold)) .STRONG_TREND
      (add_condition (decide (snap.rsi > cfg.rsi_overbought)) .RSI_OVERBOUGHT
        (add_condition (decide (current_price < snap.ema_trend)) .BELOW_TREND
          (add_condition (decide (snap.ema_fast < snap.ema_slow)) .EMA_CROSS
            (0, [])))))

/-- The indicator-stack path of `analyze` (strategy.py lines 500-632):
score both sides from the snapshot, then emit BUY first, else SELL, else
nothing. -/
def evaluate_indicator_path (cfg : StrategyConfig) (snap : IndicatorSnapshot)
    (df : List Candle) : Option Signal :=
  match df.getLast? with
  | none => none
  | some last =>
    let current_price := last.cl
    let current_time : Option ℤ := some last.time
    let buy := buy_conditions cfg snap current_price
    let sell := sell_conditions cfg snap current_price
    if is_signal_allowed cfg .BUY current_time buy.1 buy.2 then
      some
        { side := .BUY, confidence := (buy.1 : ℚ) / 5, conditions_met := buy.1,
          conditions_detail := buy.2 }
    else if is_signal_allowed cfg .SELL current_time sell.1 sell.2 then
      some
        { side := .SELL, confidence := (sell.1 : ℚ) / 5,
          conditions_met := sell.1, conditions_detail := sell.2 }
    else none

/-! ### SMC module state (FVG zones) -/

/-- An FVG zone (strategy.py dataclass, lines 21-28). -/
structure FVGZone where
  direction : Bias
  low : ℚ
  high : ℚ
  created_time : ℤ
  created_index : ℤ
  used : Bool
deriving DecidableEq, Repr

/-- Persistent SMC state held on the strategy object (strategy.py lines
118-121). -/
structure SMCState where
  last_structure_bias : Bias
  active_fvgs : List FVGZone
  fvg_seen_keys : List (Bias × ℚ × ℚ × ℤ)
deriving DecidableEq, Repr

/-- Python `round()` to the nearest integer with ties to even. -/
def python_round_int (x : ℚ) : ℤ :=
  let f := ⌊x⌋
  let frac := x - f
  if frac < 1 / 2 then f
  else if 1 / 2 < frac then f + 1
  else if f % 2 = 0 then f else f + 1

/-- Python `round(x, 6)` (ties to even at the 6th decimal). -/
def python_round6 (x : ℚ) : ℚ := (python_round_int (x * 1000000) : ℚ) / 1000000

/-- True ranges for candles after the first, each against the previous
close (the pandas `max(|h-l|, |h-prev_c|, |l-prev_c|)` per row). -/
def true_range_pairs (prev : Candle) : List Candle → List ℚ
  | [] => []
  | c :: cs =>
    pymax (pyabs (c.hi - c.lo))
        (pymax (pyabs (c.hi - prev.cl)) (pyabs (c.lo - prev.cl))) ::
      true_range_pairs c cs

/-- Per-row true ranges of a candle list; for the first row the shifted
previous close is NaN and the pandas row-max skips it, leaving |h-l|. -/
def true_range_list : List Candle → List ℚ
  | [] => []
  | c0 :: rest => pyabs (c0.hi - c0.lo) :: true_range_pairs c0 rest

/-- `FusionStrategy._compute_atr` (strategy.py lines 189-213): rolling
mean of the last `period` true ranges; `none` models the NaN returned for
windows shorter than period + 2. -/
def compute_atr (df : List Candle) (period : ℕ) : Option ℚ :=
  if df.length < period + 2 then none
  else
    let trs := true_range_list df
    some ((trs.drop (trs.length - period)).sum / (period : ℚ))

/-- Zone insertion core of `_maybe_add_fvg` (strategy.py lines 333-356):
degenerate-zone check, ATR size filter, key dedup, append. -/
def add_fvg_zone (cfg : StrategyConfig) (df : List Candle) (i : ℕ) (t : ℤ)
    (direction : Bias) (zone_low zone_high : ℚ) (st : SMCState) : SMCState :=
  if zone_high ≤ zone_low then st
  else
    let size_rejected :=
      match compute_atr df 14 with
      | some atr =>
        decide (atr > 0) &&
          decide (zone_high - zone_low < atr * cfg.fvg_min_size_atr_mult)
      | none => false
    if size_rejected then st
    else
      let key := (direction, python_round6 zone_low, python_round6 zone_high, t)
      if key ∈ st.fvg_seen_keys then st
      else
        { st with
          fvg_seen_keys := st.fvg_seen_keys ++ [key],
          active_fvgs :=
            st.active_fvgs ++
              [{ direction := direction, low := zone_low, high := zone_high,
                 created_time := t, created_index := (i : ℤ), used := false }] }

/-- `FusionStrategy._maybe_add_fvg` (strategy.py lines 308-356): the
3-candle FVG rule at index `i`. -/
def maybe_add_fvg (cfg : StrategyConfig) (df : List Candle) (i : ℕ)
    (st : SMCState) : SMCState :=
  if i < 2 then st
  else
    match df.get? i, df.get? (i - 2) with
    | some ci, some ci2 =>
      let t := ci.time
      if ci.lo > ci2.hi then
        add_fvg_zone cfg df i t .BULL ci2.hi ci.lo st
      else if ci.hi < ci2.lo then
        add_fvg_zone cfg df i t .BEAR ci.hi ci2.lo st
      else st
    | _, _ => st

/-- `FusionStrategy._seed_fvg_zones` (strategy.py lines 302-306) with the
default lookback of 120 bars. -/
def seed_fvg_zones (cfg : StrategyConfig) (df : List Candle) (st : SMCState) :
    SMCState :=
  let start := max 2 (df.length - 120)
  (List.range' start (df.length - start)).foldl
    (fun acc i => maybe_add_fvg cfg df i acc) st

/-- `FusionStrategy._update_fvg_zones` (strategy.py lines 358-378). -/
def update_fvg_zones (cfg : StrategyConfig) (df : List Candle) (st : SMCState) :
    SMCState :=
  if df.length < 10 then st
  else
    let st1 := if st.active_fvgs.isEmpty then seed_fvg_zones cfg df st else st
    let st2 := maybe_add_fvg cfg df (df.length - 1) st1
    let max_age := max 5 cfg.fvg_max_age_bars
    let current_idx : ℤ := (df.length : ℤ) - 1
    { st2 with
      active_fvgs :=
        st2.active_fvgs.filter
          (fun z => ¬z.used ∧ current_idx - z.created_index ≤ max_age) }

/-- Whether a zone passes every `continue` filter of the BULL branch of
`_fvg_rejection_signal` (strategy.py lines 398-414). -/
def zone_matches_bull (cfg : StrategyConfig) (o h l c body : ℚ)
    (z : FVGZone) : Bool :=
  z.direction = .BULL ∧ ¬z.used ∧ (l ≤ z.high ∧ h ≥ z.low) ∧ c > z.high ∧
    (¬cfg.fvg_require_candle_direction ∨ c > o) ∧
    pymin o c - l ≥ body * cfg.fvg_wick_body_ratio

/-- Whether a zone passes every `continue` filter of the BEAR branch of
`_fvg_rejection_signal` (strategy.py lines 429-445). -/
def zone_matches_bear (cfg : StrategyConfig) (o h l c body : ℚ)
    (z : FVGZone) : Bool :=
  z.direction = .BEAR ∧ ¬z.used ∧ (h ≥ z.low ∧ l ≤ z.high) ∧ c < z.low ∧
    (¬cfg.fvg_require_candle_direction ∨ c < o) ∧
    h - pymax o c ≥ body * cfg.fvg_wick_body_ratio

/-- Find the last list element satisfying `p` (the first when scanning
`reversed(self._active_fvgs)`, strategy.py line 396) and mark it used;
returns that zone and the updated list. -/
def mark_last_match (p : FVGZone → Bool) :
    List FVGZone → Option (FVGZone × List FVGZone)
  | [] => none
  | z :: zs =>
    match mark_last_match p zs with
    | some (zm, zs') => some (zm, z :: zs')
    | none => if p z then some (z, { z with used := true } :: zs) else none

/-- `FusionStrategy._fvg_rejection_signal` (strategy.py lines 380-460):
the signal, if any, together with the zone list after consuming the
matched zone. -/
def fvg_rejection_signal (cfg : StrategyConfig) (df : List Candle)
    (bias : Bias) (zones : List FVGZone) :
    Option (Signal × List FVGZone) :=
  if df.length < 5 then none
  else
    match df.getLast? with
    | none => none
    | some last =>
      let o := last.op
      let h := last.hi
      let l := last.lo
      let c := last.cl
      let t := last.time
      let body := pymax (pyabs (c - o)) (1 / 1000000000)
      match bias with
      | .BULL =>
        match mark_last_match (zone_matches_bull cfg o h l c body) zones with
        | some (z, zones') =>
          some
            ({ side := .BUY, confidence := 17 / 20, conditions_met := 5,
               conditions_detail :=
                 [.SMC_BIAS_BULL, .FVG_RETEST, .FVG_REJECTION_CLOSE_OUT,
                  .FVG_ZONE z.low z.high, .TIME t] },
             zones')
        | none => none
      | .BEAR =>
        match mark_last_match (zone_matches_bear cfg o h l c body) zones with
        | some (z, zones') =>
          some
            ({ side := .SELL, confidence := 17 / 20, conditions_met := 5,
               conditions_detail :=
                 [.SMC_BIAS_BEAR, .FVG_RETEST, .FVG_REJECTION_CLOSE_OUT,
                  .FVG_ZONE z.low z.high, .TIME t] },
             zones')
        | none => none
      | .NEUTRAL => none

/-- `FusionStrategy.analyze` (strategy.py lines 476-636): SMC path first
when enabled, else / then the indicator path.  Returns the signal (if
any) and the updated persistent SMC state. -/
def analyze (cfg : StrategyConfig) (snap : IndicatorSnapshot)
    (df : List Candle) (bias : Option Bias) (st : SMCState) :
    Option Signal × SMCState :=
  if df.length < 50 then (none, st)
  else if cfg.smc_enabled ∧ cfg.fvg_enabled then
    let st1 := update_fvg_zones cfg df st
    let bias_val := bias.getD st1.last_structure_bias
    match fvg_rejection_signal cfg df bias_val st1.active_fvgs with
    | some (sig, zones') => (some sig, { st1 with active_fvgs := zones' })
    | none =>
      if cfg.smc_only then (none, st1)
      else (evaluate_indicator_path cfg snap df, st1)
  else (evaluate_indicator_path cfg snap df, st)

/-- `FusionStrategy.analyze_from_rates` (strategy.py lines 465-474);
`rates = none` models a None rates array. -/
def analyze_from_rates (cfg : StrategyConfig) (snap : IndicatorSnapshot)
    (rates : Option (List Candle)) (bias : Option Bias) (st : SMCState) :
    Option Signal × SMCState :=
  match rates with
  | none => (none, st)
  | some rs =>
    if rs.length < 50 then (none, st) else analyze cfg snap rs bias st

/-! ### Concrete inputs used by the counterexamples -/

/-- A strategy configuration with the source's default thresholds and the
SMC module disabled. -/
def cfg_indicator_only : StrategyConfig :=
  { min_conditions := 3, trend_filter_enabled := true,
    trend_filter_scope := .window, window_weekday := 3,
    window_start_hour := 0, window_end_hour := 8, require_trend_flag := true,
    buy_extra_conditions := 0, sell_extra_conditions := 0, rsi_oversold := 30,
    rsi_overbought := 70, adx_threshold := 25, stoch_oversold := 20,
    stoch_overbought := 80, smc_enabled := false, smc_only := false,
    fvg_enabled := false, fvg_max_age_bars := 40, fvg_min_size_atr_mult := 0,
    fvg_wick_body_ratio := 1, fvg_require_candle_direction := true }

/-- An indicator snapshot satisfying all five BUY rules of the catalog. -/
def snap_strong_buy : IndicatorSnapshot :=
  { ema_fast := 2, ema_slow := 1, ema_trend := 0, rsi := 10, adx := 30,
    stoch_k := 10, stoch_d := 5, bb_upper := 3, bb_lower := 0 }

/-- An indicator snapshot whose trend EMA equals the price (the
both-comparisons-false outcome a NaN trend EMA produces on a window
shorter than its period), satisfying four BUY rules. -/
def snap_nan_trend : IndicatorSnapshot :=
  { ema_fast := 2, ema_slow := 1, ema_trend := 1, rsi := 10, adx := 30,
    stoch_k := 10, stoch_d := 5, bb_upper := 3, bb_lower := 0 }

/-- A flat candle at the epoch (1970-01-01 00:00, a Thursday). -/
def flat_candle : Candle := { time := 0, op := 1, hi := 1, lo := 1, cl := 1 }

/-- A flat candle on a Monday (epoch + 4 days). -/
def monday_candle : Candle :=
  { time := 345600, op := 1, hi := 1, lo := 1, cl := 1 }

/-- A 200-bar candle window. -/
def df_200 : List Candle := List.replicate 200 flat_candle

/-- A 60-bar candle window: beyond the code's 50-bar gate but shorter than
the 200-bar longest configured period. -/
def df_60 : List Candle := List.replicate 60 monday_candle

/-- Fresh SMC state (strategy.py lines 118-121). -/
def smc_state0 : SMCState :=
  { last_structure_bias := .NEUTRAL, active_fvgs := [], fvg_seen_keys := [] }

/-! # Theorems -/

theorem pyabs_nonneg (x : ℚ) : 0 ≤ pyabs x := by
  unfold pyabs
  split_ifs with h
  · linarith
  · linarith [not_lt.mp h]

theorem pyabs_of_nonneg {x : ℚ} (h : 0 ≤ x) : pyabs x = x := by
  unfold pyabs
  exact if_neg (not_lt.mpr h)

theorem pymax_of_gt {a b : ℚ} (h : b > a) : pymax a b = b := by
  unfold pymax
  exact if_pos h

/-! ## C1: broker-minimum repair -/

theorem repair_keeps_valid_sl (price sl tp m : ℚ) (dir : Dir)
    (h : m ≤ pyabs (price - sl)) :
    (repair_for_broker_minimum price sl tp m dir).1 = sl := by
  unfold repair_for_broker_minimum
  cases dir <;> simp only [] <;> rw [if_neg (not_lt.mpr h)] <;>
    split_ifs <;> rfl

theorem repair_keeps_valid_pair (price sl tp m : ℚ) (dir : Dir)
    (h1 : m ≤ pyabs (price - sl)) (h2 : m ≤ pyabs (tp - price)) :
    repair_for_broker_minimum price sl tp m dir = (sl, tp) := by
  unfold repair_for_broker_minimum
  cases dir <;> simp only [] <;>
    rw [if_neg (not_lt.mpr h1), if_neg (not_lt.mpr h2)]

theorem repair_sl_distance (price sl tp m : ℚ) (dir : Dir) :
    m ≤ pyabs (price - (repair_for_broker_minimum price sl tp m dir).1) := by
  unfold repair_for_broker_minimum
  cases dir <;> simp only []
  case BUY =>
    by_cases c1 : pyabs (price - sl) < m
    · have hm : 0 < m := lt_of_le_of_lt (pyabs_nonneg _) c1
      rw [if_pos c1]
      split_ifs <;>
        · simp only []
          rw [show price - (price - m) = m by ring, pyabs_of_nonneg hm.le]
    · rw [if_neg c1]
      split_ifs <;> simp only [] <;> linarith [not_lt.mp c1]
  case SELL =>
    by_cases c1 : pyabs (price - sl) < m
    · have hm : 0 < m := lt_of_le_of_lt (pyabs_nonneg _) c1
      rw [if_pos c1]
      split_ifs <;>
        · simp only []
          rw [show price - (price + m) = -m by ring]
          unfold pyabs
          rw [if_pos (by linarith : -m < 0)]
          linarith
    · rw [if_neg c1]
      split_ifs <;> simp only [] <;> linarith [not_lt.mp c1]

theorem repair_tp_distance (price sl tp m : ℚ) (dir : Dir) :
    m ≤ pyabs ((repair_for_broker_minimum price sl tp m dir).2 - price) := by
  unfold repair_for_broker_minimum
  cases dir <;> simp only []
  case BUY =>
    by_cases c2 : pyabs (tp - price) < m
    · have hm : 0 < m := lt_of_le_of_lt (pyabs_nonneg _) c2
      rw [if_pos c2]
      split_ifs <;>
        · simp only []
          rw [pymax_of_gt c2, show price + m - price = m by ring,
            pyabs_of_nonneg hm.le]
    · rw [if_neg c2]
      by_cases c1 : pyabs (price - sl) < m
      · have hm : 0 < m := lt_of_le_of_lt (pyabs_nonneg _) c1
        rw [if_pos c1]
        simp only []
        rw [show price + m * 2 - price = m * 2 by ring,
          pyabs_of_nonneg (by linarith : (0:ℚ) ≤ m * 2)]
        linarith
      · rw [if_neg c1]
        linarith [not_lt.mp c2]
  case SELL =>
    by_cases c2 : pyabs (tp - price) < m
    · have hm : 0 < m := lt_of_le_of_lt (pyabs_nonneg _) c2
      rw [if_pos c2]
      split_ifs <;>
        · simp only []
          rw [pymax_of_gt c2, show price - m - price = -m by ring]
          unfold pyabs
          rw [if_pos (by linarith : -m < 0)]
          linarith
    · rw [if_neg c2]
      by_cases c1 : pyabs (price - sl) < m
      · have hm : 0 < m := lt_of_le_of_lt (pyabs_nonneg _) c1
        rw [if_pos c1]
        simp only []
        rw [show price - m * 2 - price = -(m * 2) by ring]
        unfold pyabs
        rw [if_pos (by linarith : -(m * 2) < 0)]
        linarith
      · rw [if_neg c1]
        linarith [not_lt.mp c2]

/-- Claim C1, as stated, is false: with price 100, stop 99, target 200 and
minimum distance 10 (BUY), the target distance 100 already meets the
minimum, yet the stop-repair branch rewrites the target to 120, shrinking
its distance to 20. -/
theorem C1_repair_counterexample :
    pyabs ((200 : ℚ) - 100) ≥ 10 ∧
      repair_for_broker_minimum 100 99 200 10 .BUY = (90, 120) ∧
      pyabs ((120 : ℚ) - 100) < pyabs ((200 : ℚ) - 100) := by
  norm_num [repair_for_broker_minimum, pyabs, pymax]

/-- Claim C1 (amended): after the repair step both the stop distance and
the target distance are at least the minimum distance, and a stop (resp. a
stop-and-target pair) whose distance already meets the minimum is left
unchanged; the repair can however shrink an already-valid target distance
when only the stop needed repair. -/
theorem C1_repair_amended (price sl tp m : ℚ) (dir : Dir) :
    (m ≤ pyabs (price - (repair_for_broker_minimum price sl tp m dir).1) ∧
      m ≤ pyabs ((repair_for_broker_minimum price sl tp m dir).2 - price)) ∧
    (m ≤ pyabs (price - sl) →
      (repair_for_broker_minimum price sl tp m dir).1 = sl) ∧
    (m ≤ pyabs (price - sl) → m ≤ pyabs (tp - price) →
      repair_for_broker_minimum price sl tp m dir = (sl, tp)) :=
  ⟨⟨repair_sl_distance price sl tp m dir, repair_tp_distance price sl tp m dir⟩,
    fun h => repair_keeps_valid_sl price sl tp m dir h,
    fun h1 h2 => repair_keeps_valid_pair price sl tp m dir h1 h2⟩

/-! ## C6 / C7: ATR stop calculation -/

/-- Claim C6, as stated, is false: with atr = 0 (and the default multiples
1 and 2) the stop computation returns (entry, entry) = (2000, 2000), not
the (0, 0) sentinel pair. -/
theorem C6_atr_sentinel_counterexample :
    calculate_atr_based_stops ⟨1, 2⟩ 2000 0 .BUY = (2000, 2000) ∧
      calculate_atr_based_stops ⟨1, 2⟩ 2000 0 .BUY ≠ (0, 0) := by
  constructor
  · norm_num [calculate_atr_based_stops]
  · norm_num [calculate_atr_based_stops]

/-- Claim C6 (amended): `calculate_atr_based_stops` performs no atr check
and does not return the (0,0) sentinel for atr ≤ 0 (the sentinel belongs
to its exception handler only); instead, for atr ≤ 0 the levels land on
the wrong (or equal) side of entry and `validate_trade` — the last gate
before order submission — rejects them. -/
theorem C6_nonpositive_atr_rejected (cfg : TradingConfig) (entry atr : ℚ)
    (dir : Dir) (hatr : atr ≤ 0) (hsl : 0 < cfg.stop_loss_atr_multiple) :
    validate_trade dir entry (calculate_atr_based_stops cfg entry atr dir).1
      (calculate_atr_based_stops cfg entry atr dir).2 = false := by
  have hd : atr * cfg.stop_loss_atr_multiple ≤ 0 :=
    mul_nonpos_iff.mpr (Or.inr ⟨hatr, hsl.le⟩)
  cases dir with
  | BUY =>
    simp only [calculate_atr_based_stops, validate_trade]
    split_ifs with h1 h2 h3
    · rfl
    · rfl
    · rfl
    · exact absurd (by linarith : entry - atr * cfg.stop_loss_atr_multiple ≥
        entry) h2
  | SELL =>
    simp only [calculate_atr_based_stops, validate_trade]
    split_ifs with h1 h2 h3
    · rfl
    · rfl
    · rfl
    · exact absurd (by linarith : entry + atr * cfg.stop_loss_atr_multiple ≤
        entry) h2

/-- Witness for C6 (amended) at entry 2000, atr 0, multiples (1, 2),
direction BUY. -/
theorem C6_nonpositive_atr_rejected_witness :
    validate_trade .BUY 2000 (calculate_atr_based_stops ⟨1, 2⟩ 2000 0 .BUY).1
      (calculate_atr_based_stops ⟨1, 2⟩ 2000 0 .BUY).2 = false :=
  C6_nonpositive_atr_rejected ⟨1, 2⟩ 2000 0 .BUY (by norm_num) (by norm_num)

/-- Claim C7: for positive atr and positive configured multiples, the
stop computation is sign-consistent (BUY: stop < entry < target; SELL:
target < entry < stop), and the scenario entry 2000, atr 5, multiples
(1, 2), BUY yields stop 1995 and target 2010. -/
theorem C7_stops_sign_consistent (cfg : TradingConfig) (entry atr : ℚ)
    (hatr : 0 < atr) (hsl : 0 < cfg.stop_loss_atr_multiple)
    (htp : 0 < cfg.take_profit_atr_multiple) :
    ((calculate_atr_based_stops cfg entry atr .BUY).1 < entry ∧
        entry < (calculate_atr_based_stops cfg entry atr .BUY).2) ∧
      ((calculate_atr_based_stops cfg entry atr .SELL).2 < entry ∧
        entry < (calculate_atr_based_stops cfg entry atr .SELL).1) ∧
      calculate_atr_based_stops ⟨1, 2⟩ 2000 5 .BUY = (1995, 2010) := by
  have h1 : 0 < atr * cfg.stop_loss_atr_multiple := mul_pos hatr hsl
  have h2 : 0 < atr * cfg.take_profit_atr_multiple := mul_pos hatr htp
  refine ⟨⟨?_, ?_⟩, ⟨?_, ?_⟩, ?_⟩
  · simp only [calculate_atr_based_stops]
    linarith
  · simp only [calculate_atr_based_stops]
    linarith
  · simp only [calculate_atr_based_stops]
    linarith
  · simp only [calculate_atr_based_stops]
    linarith
  · norm_num [calculate_atr_based_stops]

/-- Witness for C7 at entry 2000, atr 5, multiples (1, 2). -/
theorem C7_stops_sign_consistent_witness :
    ((calculate_atr_based_stops ⟨1, 2⟩ 2000 5 .BUY).1 < 2000 ∧
        2000 < (calculate_atr_based_stops ⟨1, 2⟩ 2000 5 .BUY).2) ∧
      ((calculate_atr_based_stops ⟨1, 2⟩ 2000 5 .SELL).2 < 2000 ∧
        2000 < (calculate_atr_based_stops ⟨1, 2⟩ 2000 5 .SELL).1) ∧
      calculate_atr_based_stops ⟨1, 2⟩ 2000 5 .BUY = (1995, 2010) :=
  C7_stops_sign_consistent ⟨1, 2⟩ 2000 5 (by norm_num) (by norm_num)
    (by norm_num)

/-! ## C2: daily pause flag stickiness -/

/-- Claim C2: the pause flag can only be set by a call with a positive
daily profit target configured; once `daily_target_reached` is set, every
call of the check on the same local date returns paused with the state
unchanged, regardless of the deals, FX and account inputs; and the flag is
cleared only when the local date changes. -/
theorem C2_daily_pause_sticky (cfg : DailyConfig) (st : DailyState)
    (env : DailyEnv) :
    (st.daily_target_reached = false →
        (check_daily_profit cfg st env).2.daily_target_reached = true →
        0 < cfg.daily_profit_target) ∧
    (0 < cfg.daily_profit_target → st.daily_target_reached = true →
        env.current_date = st.last_target_check_date →
        check_daily_profit cfg st env = (true, st)) ∧
    (st.daily_target_reached = true →
        (check_daily_profit cfg st env).2.daily_target_reached = false →
        env.current_date ≠ st.last_target_check_date) := by
  refine ⟨?_, ?_, ?_⟩
  · intro h1 h2
    by_cases ht : cfg.daily_profit_target ≤ 0
    · rw [check_daily_profit, if_pos ht] at h2
      rw [h1] at h2
      exact absurd h2 (by simp)
    · exact not_le.mp ht
  · intro ht h1 h2
    have hd : ¬(env.current_date ≠ st.last_target_check_date) :=
      not_not_intro h2
    rw [check_daily_profit, if_neg (not_le.mpr ht), if_neg hd, if_pos h1]
  · intro h1 h2 hne
    have hd : ¬(env.current_date ≠ st.last_target_check_date) :=
      not_not_intro hne
    by_cases ht : cfg.daily_profit_target ≤ 0
    · rw [check_daily_profit, if_pos ht] at h2
      rw [h1] at h2
      exact absurd h2 (by simp)
    · rw [check_daily_profit, if_neg ht, if_neg hd, if_pos h1] at h2
      rw [h1] at h2
      exact absurd h2 (by simp)

/-- Witness for C2 stickiness: flag set, same date, positive target — the
check reports paused and leaves the state unchanged whatever the P&L
inputs are. -/
theorem C2_daily_pause_sticky_witness :
    check_daily_profit ⟨50, 7, 100, false, true⟩ ⟨true, none, 0⟩
        ⟨0, some [⟨7, 1, -500, 0, 0⟩], .unavailable, some (1000, 400)⟩ =
      (true, ⟨true, none, 0⟩) :=
  (C2_daily_pause_sticky ⟨50, 7, 100, false, true⟩ ⟨true, none, 0⟩
    ⟨0, some [⟨7, 1, -500, 0, 0⟩], .unavailable, some (1000, 400)⟩).2.1
    (by norm_num) rfl rfl

/-! ## C10: cooldown configuration non-interference -/

/-- Claim C10: `is_in_cooldown` is unchanged by TRADING.trade_cooldown_seconds
(loaded but never read), and compares the elapsed time against the scalp
cooldown exactly when volatility detection is enabled and the last trade
was a scalp exit, else against the normal cooldown. -/
theorem C10_cooldown_ignores_trade_cooldown (cfg : CooldownConfig) (c : ℚ)
    (st : CooldownState) (now : ℚ) :
    is_in_cooldown { cfg with trade_cooldown := c } st now =
        is_in_cooldown cfg st now ∧
      ∀ t, st.last_trade_time = some t →
        (is_in_cooldown cfg st now).1 =
          decide (now - t <
            if cfg.volatility_enabled ∧ st.last_trade_type = some .scalp then
              cfg.scalp_cooldown
            else cfg.normal_cooldown) := by
  constructor
  · rfl
  · intro t ht
    simp only [is_in_cooldown, ht]
    split_ifs <;> simp [*]

/-! ## C3: break-even -/

theorem apply_atr_breakeven_of_applied (cfg : ManageConfig) (env : ManageEnv)
    (position : PositionInfo) (pos_data : TrackedPos) (entry_atr : ℚ)
    (h : pos_data.breakeven_applied = true) :
    apply_atr_breakeven cfg env position pos_data entry_atr =
      (pos_data, none) := by
  simp only [apply_atr_breakeven]
  rw [if_pos h]

theorem apply_atr_breakeven_no_attempt (cfg : ManageConfig) (env : ManageEnv)
    (position : PositionInfo) (pos_data : TrackedPos) (entry_atr : ℚ)
    (h : (apply_atr_breakeven cfg env position pos_data entry_atr).2 = none) :
    (apply_atr_breakeven cfg env position pos_data entry_atr).1 = pos_data := by
  rcases env with ⟨tick, ms⟩
  rcases position with ⟨tkt, pt, po, psl, ptp⟩
  cases tick with
  | none =>
    simp only [apply_atr_breakeven] at h ⊢
    split_ifs at h ⊢ <;> simp_all
  | some tk =>
    cases pt with
    | BUY =>
      simp only [apply_atr_breakeven, modify_position] at h ⊢
      split_ifs at h ⊢ <;> simp_all
    | SELL =>
      simp only [apply_atr_breakeven, modify_position] at h ⊢
      split_ifs at h ⊢ <;> simp_all

theorem apply_atr_breakeven_attempt (cfg : ManageConfig) (env : ManageEnv)
    (position : PositionInfo) (pos_data : TrackedPos) (entry_atr : ℚ)
    (s : ℚ) (ok : Bool)
    (h : (apply_atr_breakeven cfg env position pos_data entry_atr).2 =
      some (s, ok)) :
    ok = env.modify_succeeds ∧
    (apply_atr_breakeven cfg env position pos_data entry_atr).1 =
      (if ok then { pos_data with breakeven_applied := true } else pos_data) ∧
    pos_data.breakeven_applied = false ∧
    ∀ tick, env.tick = some tick →
      (position.ptype = .BUY →
        tick.bid ≥
          position.price_open + entry_atr * cfg.breakeven_trigger_multiple ∧
        s = position.price_open + entry_atr * cfg.breakeven_lock_multiple ∧
        s > position.sl) ∧
      (position.ptype = .SELL →
        tick.ask ≤
          position.price_open - entry_atr * cfg.breakeven_trigger_multiple ∧
        s = position.price_open - entry_atr * cfg.breakeven_lock_multiple ∧
        s < position.sl) := by
  rcases env with ⟨tick, ms⟩
  rcases position with ⟨tkt, pt, po, psl, ptp⟩
  cases tick with
  | none =>
    simp only [apply_atr_breakeven] at h
    split_ifs at h
  | some tk =>
    cases pt with
    | BUY =>
      simp only [apply_atr_breakeven, modify_position] at h ⊢
      split_ifs at h ⊢ with hap h1 h2 h3 <;> simp_all
    | SELL =>
      simp only [apply_atr_breakeven, modify_position] at h ⊢
      split_ifs at h ⊢ with hap h1 h2 h3 <;> simp_all

theorem breakeven_run_of_applied (cfg : ManageConfig) (pos_data : TrackedPos)
    (h : pos_data.breakeven_applied = true)
    (cycles : List (ManageEnv × PositionInfo × ℚ)) :
    breakeven_run cfg pos_data cycles = (pos_data, 0) := by
  induction cycles with
  | nil => rfl
  | cons c rest ih =>
    obtain ⟨env, position, atr⟩ := c
    simp only [breakeven_run]
    rw [apply_atr_breakeven_of_applied cfg env position pos_data atr h]
    simp [ih]

theorem breakeven_run_le_one (cfg : ManageConfig)
    (cycles : List (ManageEnv × PositionInfo × ℚ)) (pos_data : TrackedPos) :
    (breakeven_run cfg pos_data cycles).2 ≤ 1 := by
  induction cycles generalizing pos_data with
  | nil => simp [breakeven_run]
  | cons c rest ih =>
    obtain ⟨env, position, atr⟩ := c
    simp only [breakeven_run]
    rcases hatt : (apply_atr_breakeven cfg env position pos_data atr).2 with
      _ | ⟨s, ok⟩
    · simpa using ih _
    · cases ok with
      | false => simpa [hatt] using ih _
      | true =>
        have hspec :=
          apply_atr_breakeven_attempt cfg env position pos_data atr s true hatt
        have hflag :
            (apply_atr_breakeven cfg env position pos_data atr).1.breakeven_applied =
              true := by
          rw [hspec.2.1]
          simp
        rw [breakeven_run_of_applied cfg _ hflag rest]
        simp [hatt]

/-- Claim C3: break-even is a no-op once `breakeven_applied` is set and at
most one break-even modification ever succeeds over a position's lifetime;
when no modification is attempted the tracked record is unchanged; and any
attempted modification fires only when the favorable excursion reaches
entry_atr × trigger multiple, proposes exactly entry ± entry_atr × lock
multiple, strictly tightens the gateway-reported stop, and sets the flag
exactly when the gateway acknowledged the modification (a failed call
leaves the record unchanged). -/
theorem C3_breakeven_once_and_gated (cfg : ManageConfig) (env : ManageEnv)
    (position : PositionInfo) (pos_data : TrackedPos) (entry_atr : ℚ) :
    (pos_data.breakeven_applied = true →
      apply_atr_breakeven cfg env position pos_data entry_atr =
        (pos_data, none)) ∧
    ((apply_atr_breakeven cfg env position pos_data entry_atr).2 = none →
      (apply_atr_breakeven cfg env position pos_data entry_atr).1 =
        pos_data) ∧
    (∀ s ok,
      (apply_atr_breakeven cfg env position pos_data entry_atr).2 =
        some (s, ok) →
      ok = env.modify_succeeds ∧
      (apply_atr_breakeven cfg env position pos_data entry_atr).1 =
        (if ok then { pos_data with breakeven_applied := true }
         else pos_data) ∧
      pos_data.breakeven_applied = false ∧
      ∀ tick, env.tick = some tick →
        (position.ptype = .BUY →
          tick.bid ≥
            position.price_open + entry_atr * cfg.breakeven_trigger_multiple ∧
          s = position.price_open + entry_atr * cfg.breakeven_lock_multiple ∧
          s > position.sl) ∧
        (position.ptype = .SELL →
          tick.ask ≤
            position.price_open - entry_atr * cfg.breakeven_trigger_multiple ∧
          s = position.price_open - entry_atr * cfg.breakeven_lock_multiple ∧
          s < position.sl)) ∧
    (∀ cycles, (breakeven_run cfg pos_data cycles).2 ≤ 1) :=
  ⟨fun h => apply_atr_breakeven_of_applied cfg env position pos_data entry_atr h,
    fun h => apply_atr_breakeven_no_attempt cfg env position pos_data entry_atr h,
    fun s ok h => apply_atr_breakeven_attempt cfg env position pos_data entry_atr s ok h,
    fun cycles => breakeven_run_le_one cfg cycles pos_data⟩

/-! ## C4: chandelier trailing -/

theorem apply_chandelier_trailing_attempt (cfg : ManageConfig)
    (env : ManageEnv) (position : PositionInfo) (entry_atr : ℚ) (s : ℚ)
    (ok : Bool)
    (h : apply_chandelier_trailing cfg env position entry_atr =
      some (s, ok)) :
    ok = env.modify_succeeds ∧
    ∀ tick, env.tick = some tick →
      (position.ptype = .BUY →
        tick.bid ≥
          position.price_open + entry_atr * cfg.trail_activation_multiple ∧
        s = tick.bid - entry_atr * cfg.trailing_atr_multiple ∧
        s > position.sl ∧ s < tick.bid) ∧
      (position.ptype = .SELL →
        tick.ask ≤
          position.price_open - entry_atr * cfg.trail_activation_multiple ∧
        s = tick.ask + entry_atr * cfg.trailing_atr_multiple ∧
        s < position.sl ∧ s > tick.ask) := by
  rcases env with ⟨tick, ms⟩
  rcases position with ⟨tkt, pt, po, psl, ptp⟩
  cases tick with
  | none => simp [apply_chandelier_trailing] at h
  | some tk =>
    cases pt with
    | BUY =>
      simp only [apply_chandelier_trailing, modify_position] at h ⊢
      split_ifs at h with h1 h2
      · simp only [Option.some.injEq, Prod.mk.injEq] at h
        obtain ⟨hs, hok⟩ := h
        subst hs
        subst hok
        refine ⟨rfl, ?_⟩
        intro tick htk
        injection htk with e
        subst e
        refine ⟨fun _ => ⟨h1, rfl, h2.1, h2.2⟩, fun hcon => ?_⟩
        cases hcon
    | SELL =>
      simp only [apply_chandelier_trailing, modify_position] at h ⊢
      split_ifs at h with h1 h2
      · simp only [Option.some.injEq, Prod.mk.injEq] at h
        obtain ⟨hs, hok⟩ := h
        subst hs
        subst hok
        refine ⟨rfl, ?_⟩
        intro tick htk
        injection htk with e
        subst e
        refine ⟨fun hcon => ?_, fun _ => ⟨h1, rfl, h2.1, h2.2⟩⟩
        cases hcon

theorem trailing_next_sl_buy_mono (cfg : ManageConfig) (env : ManageEnv)
    (position : PositionInfo) (entry_atr : ℚ)
    (hb : position.ptype = .BUY) :
    position.sl ≤ trailing_next_sl cfg env position entry_atr := by
  unfold trailing_next_sl
  rcases hatt : apply_chandelier_trailing cfg env position entry_atr with
    _ | ⟨s, ok⟩
  · exact le_refl _
  · cases ok with
    | false => exact le_refl _
    | true =>
      have hspec :=
        apply_chandelier_trailing_attempt cfg env position entry_atr s true hatt
      rcases env with ⟨tick, ms⟩
      cases tick with
      | none => simp [apply_chandelier_trailing] at hatt
      | some tk => exact ((hspec.2 tk rfl).1 hb).2.2.1.le

theorem trailing_next_sl_sell_mono (cfg : ManageConfig) (env : ManageEnv)
    (position : PositionInfo) (entry_atr : ℚ)
    (hs : position.ptype = .SELL) :
    trailing_next_sl cfg env position entry_atr ≤ position.sl := by
  unfold trailing_next_sl
  rcases hatt : apply_chandelier_trailing cfg env position entry_atr with
    _ | ⟨s, ok⟩
  · exact le_refl _
  · cases ok with
    | false => exact le_refl _
    | true =>
      have hspec :=
        apply_chandelier_trailing_attempt cfg env position entry_atr s true hatt
      rcases env with ⟨tick, ms⟩
      cases tick with
      | none => simp [apply_chandelier_trailing] at hatt
      | some tk => exact ((hspec.2 tk rfl).2 hs).2.2.1.le

theorem trailing_run_buy_mono (cfg : ManageConfig) (base : PositionInfo)
    (hb : base.ptype = .BUY) (cycles : List (ManageEnv × ℚ)) (sl0 : ℚ) :
    sl0 ≤ trailing_run cfg base sl0 cycles := by
  induction cycles generalizing sl0 with
  | nil => exact le_refl _
  | cons c rest ih =>
    obtain ⟨env, atr⟩ := c
    simp only [trailing_run]
    have hstep : sl0 ≤ trailing_next_sl cfg env { base with sl := sl0 } atr :=
      trailing_next_sl_buy_mono cfg env { base with sl := sl0 } atr hb
    exact le_trans hstep (ih _)

theorem trailing_run_sell_mono (cfg : ManageConfig) (base : PositionInfo)
    (hs : base.ptype = .SELL) (cycles : List (ManageEnv × ℚ)) (sl0 : ℚ) :
    trailing_run cfg base sl0 cycles ≤ sl0 := by
  induction cycles generalizing sl0 with
  | nil => exact le_refl _
  | cons c rest ih =>
    obtain ⟨env, atr⟩ := c
    simp only [trailing_run]
    have hstep : trailing_next_sl cfg env { base with sl := sl0 } atr ≤ sl0 :=
      trailing_next_sl_sell_mono cfg env { base with sl := sl0 } atr hs
    exact le_trans (ih _) hstep

/-- Claim C4: a chandelier modification is submitted only once the
favorable excursion reaches entry_atr × activation multiple, with the
candidate stop current_price ∓ entry_atr × trailing multiple, and only if
it strictly tightens the gateway-reported stop and lies strictly on the
correct side of the current price; consequently the gateway-side stop of a
position never loosens across cycles (monotone up for BUY, down for SELL)
and an applied stop never crosses that cycle's current price. -/
theorem C4_chandelier_monotone (cfg : ManageConfig) (env : ManageEnv)
    (position : PositionInfo) (entry_atr : ℚ) :
    (∀ s ok,
      apply_chandelier_trailing cfg env position entry_atr = some (s, ok) →
      ok = env.modify_succeeds ∧
      ∀ tick, env.tick = some tick →
        (position.ptype = .BUY →
          tick.bid ≥
            position.price_open + entry_atr * cfg.trail_activation_multiple ∧
          s = tick.bid - entry_atr * cfg.trailing_atr_multiple ∧
          s > position.sl ∧ s < tick.bid) ∧
        (position.ptype = .SELL →
          tick.ask ≤
            position.price_open - entry_atr * cfg.trail_activation_multiple ∧
          s = tick.ask + entry_atr * cfg.trailing_atr_multiple ∧
          s < position.sl ∧ s > tick.ask)) ∧
    (position.ptype = .BUY →
      position.sl ≤ trailing_next_sl cfg env position entry_atr) ∧
    (position.ptype = .SELL →
      trailing_next_sl cfg env position entry_atr ≤ position.sl) ∧
    (∀ (base : PositionInfo) (sl0 : ℚ) (cycles : List (ManageEnv × ℚ)),
      base.ptype = .BUY → sl0 ≤ trailing_run cfg base sl0 cycles) ∧
    (∀ (base : PositionInfo) (sl0 : ℚ) (cycles : List (ManageEnv × ℚ)),
      base.ptype = .SELL → trailing_run cfg base sl0 cycles ≤ sl0) :=
  ⟨fun s ok h =>
      apply_chandelier_trailing_attempt cfg env position entry_atr s ok h,
    fun hb => trailing_next_sl_buy_mono cfg env position entry_atr hb,
    fun hs => trailing_next_sl_sell_mono cfg env position entry_atr hs,
    fun base sl0 cycles hb => trailing_run_buy_mono cfg base hb cycles sl0,
    fun base sl0 cycles hs => trailing_run_sell_mono cfg base hs cycles sl0⟩

/-! ## C9: reconciliation and closure events -/

theorem handle_position_closure_ticket (cfg : ReconConfig) (env : ReconEnv)
    (tracked : List (ℕ × TrackedPos)) (u : ℕ) (e : ClosureEvent)
    (h : handle_position_closure cfg env tracked u = some e) :
    e.ticket = u := by
  unfold handle_position_closure at h
  split at h
  · exact absurd h (by simp)
  · split at h
    · exact absurd h (by simp)
    · split at h
      · exact absurd h (by simp)
      · split at h
        · exact absurd h (by simp)
        · injection h with h2
          rw [← h2]

theorem lookup_isSome_of_mem (t : ℕ) (l : List (ℕ × TrackedPos))
    (h : t ∈ l.map Prod.fst) : (l.lookup t).isSome := by
  induction l with
  | nil => simp at h
  | cons a l ih =>
    obtain ⟨k, v⟩ := a
    simp only [List.map_cons, List.mem_cons] at h
    by_cases he : t = k
    · subst he
      simp [List.lookup]
    · have hmem : t ∈ l.map Prod.fst := by
        rcases h with h1 | h1
        · exact absurd h1 he
        · exact h1
      have hbe : (t == k) = false := beq_eq_false_iff_ne.mpr he
      simp only [List.lookup, hbe]
      exact ih hmem

theorem handle_isSome_iff_available (cfg : ReconConfig) (env : ReconEnv)
    (tracked : List (ℕ × TrackedPos)) (t : ℕ)
    (h : t ∈ tracked.map Prod.fst) :
    (handle_position_closure cfg env tracked t).isSome =
      closure_event_available env t := by
  have hl := lookup_isSome_of_mem t tracked h
  unfold handle_position_closure closure_event_available
  cases hlk : tracked.lookup t with
  | none =>
    rw [hlk] at hl
    simp at hl
  | some pd =>
    cases hdf : env.deals_for t with
    | none => simp
    | some deals =>
      by_cases hemp : deals.isEmpty
      · simp [hemp]
      · cases hle : last_exit_deal deals with
        | none => simp [hemp, hle]
        | some ed => simp [hemp, hle]

theorem countP_filterMap_ticket_zero (f : ℕ → Option ClosureEvent)
    (hf : ∀ u e, f u = some e → e.ticket = u) (t : ℕ) (l : List ℕ)
    (h : t ∉ l) :
    (l.filterMap f).countP (fun e => decide (e.ticket = t)) = 0 := by
  induction l with
  | nil => simp
  | cons a l ih =>
    simp only [List.mem_cons, not_or] at h
    rw [List.filterMap_cons]
    rcases hfa : f a with _ | e
    · exact ih h.2
    · rw [List.countP_cons]
      rw [hf a e hfa]
      simp only [decide_eq_true_eq]
      rw [if_neg (fun hh : a = t => h.1 hh.symm)]
      simpa using ih h.2

theorem countP_filterMap_ticket_mem (f : ℕ → Option ClosureEvent)
    (hf : ∀ u e, f u = some e → e.ticket = u) (t : ℕ) (l : List ℕ)
    (hnd : l.Nodup) (h : t ∈ l) :
    (l.filterMap f).countP (fun e => decide (e.ticket = t)) =
      if (f t).isSome then 1 else 0 := by
  induction l with
  | nil => simp at h
  | cons a l ih =>
    have hnd' := List.nodup_cons.mp hnd
    rw [List.filterMap_cons]
    rcases List.mem_cons.mp h with rfl | hmem
    · rcases hfa : f t with _ | e
      · simp only [hfa, Option.isSome_none, Bool.false_eq_true, if_false]
        exact countP_filterMap_ticket_zero f hf t l hnd'.1
      · rw [List.countP_cons]
        rw [countP_filterMap_ticket_zero f hf t l hnd'.1]
        rw [hf t e hfa]
        simp [hfa]
    · have hta : t ≠ a := fun hh => hnd'.1 (hh ▸ hmem)
      rcases hfa : f a with _ | e
      · exact ih hnd'.2 hmem
      · rw [List.countP_cons]
        rw [hf a e hfa]
        simp only [decide_eq_true_eq]
        rw [if_neg (fun hh : a = t => hta hh.symm)]
        simpa using ih hnd'.2 hmem

theorem not_mem_keys_filter_closed (tracked : List (ℕ × TrackedPos))
    (closed : List ℕ) (t : ℕ) (h : t ∈ closed) :
    t ∉ (tracked.filter (fun e => e.1 ∉ closed)).map Prod.fst := by
  intro hmem
  rcases List.mem_map.mp hmem with ⟨e, he, hfst⟩
  rcases List.mem_filter.mp he with ⟨_, hpred⟩
  rw [hfst] at hpred
  exact (of_decide_eq_true hpred) h

theorem not_mem_keys_adopt_foldl (env : ReconEnv) (ps : List GatewayPos)
    (t : ℕ) (acc : List (ℕ × TrackedPos)) (hacc : t ∉ acc.map Prod.fst)
    (hps : t ∉ ps.map (fun p => p.ticket)) :
    t ∉ (ps.foldl
        (fun acc p =>
          if (acc.lookup p.ticket).isSome then acc
          else acc ++ [(p.ticket, adopt_position env p)])
        acc).map Prod.fst := by
  induction ps generalizing acc with
  | nil => simpa using hacc
  | cons p ps ih =>
    simp only [List.map_cons, List.mem_cons, not_or] at hps
    rw [List.foldl_cons]
    apply ih
    · by_cases hl : (acc.lookup p.ticket).isSome
      · rw [if_pos hl]
        exact hacc
      · rw [if_neg hl]
        simp only [List.map_append, List.mem_append]
        rintro (hin | hin)
        · exact hacc hin
        · simp only [List.map_cons, List.map_nil, List.mem_singleton] at hin
          exact hps.1 hin
    · exact hps.2

/-- Claim C9, as stated, is false: when a tracked ticket disappears from
the gateway snapshot but the deal-history query returns an empty list, the
reconciliation pass emits ZERO closure events (not exactly one) while
still removing the ticket from the tracked map. -/
theorem C9_closure_counterexample :
    (update_tracked_positions ⟨7, 1⟩
        ⟨some [], fun _ => some [], none⟩
        [(1, ⟨100, 90, 120, .BUY, 1, 0, 5, false⟩)]).2 = [] ∧
      (update_tracked_positions ⟨7, 1⟩
        ⟨some [], fun _ => some [], none⟩
        [(1, ⟨100, 90, 120, .BUY, 1, 0, 5, false⟩)]).1 = [] := by
  constructor <;>
    simp [update_tracked_positions, handle_position_closure, List.lookup]

/-- Claim C9 (amended): a tracked ticket that stops being reported is
removed from the tracked map in the same reconciliation pass, and AT MOST
one closure event is emitted for it — exactly one precisely when the
gateway's deal history for the ticket is available, non-empty and contains
an exit deal; a ticket that is not tracked gets no event, so after the
removal no later pass can emit a second event for it. -/
theorem C9_closure_once_and_removed (cfg : ReconConfig) (env : ReconEnv)
    (tracked : List (ℕ × TrackedPos)) (t : ℕ)
    (hnd : (tracked.map Prod.fst).Nodup)
    (htr : t ∈ tracked.map Prod.fst)
    (hgone : t ∉ ((env.positions.getD []).filter
        (fun p => p.magic = cfg.magic_number)).map (fun p => p.ticket)) :
    ((update_tracked_positions cfg env tracked).2.countP
        (fun e => decide (e.ticket = t)) =
      if closure_event_available env t then 1 else 0) ∧
    t ∉ (update_tracked_positions cfg env tracked).1.map Prod.fst ∧
    ∀ env' : ReconEnv,
      ((update_tracked_positions cfg env'
          (update_tracked_positions cfg env tracked).1).2.countP
        (fun e => decide (e.ticket = t))) = 0 := by
  have hf : ∀ u e, handle_position_closure cfg env tracked u = some e →
      e.ticket = u := fun u e h =>
    handle_position_closure_ticket cfg env tracked u e h
  have hclosed : t ∈ (tracked.map Prod.fst).filter
      (fun u => u ∉ ((env.positions.getD []).filter
        (fun p => p.magic = cfg.magic_number)).map (fun p => p.ticket)) := by
    rw [List.mem_filter]
    exact ⟨htr, decide_eq_true hgone⟩
  have hndc : ((tracked.map Prod.fst).filter
      (fun u => u ∉ ((env.positions.getD []).filter
        (fun p => p.magic = cfg.magic_number)).map (fun p => p.ticket))).Nodup :=
    hnd.filter _
  have hremoved : t ∉ (update_tracked_positions cfg env tracked).1.map
      Prod.fst := by
    unfold update_tracked_positions
    simp only []
    apply not_mem_keys_adopt_foldl
    · exact not_mem_keys_filter_closed tracked _ t hclosed
    · exact hgone
  refine ⟨?_, hremoved, ?_⟩
  · unfold update_tracked_positions
    simp only []
    rw [countP_filterMap_ticket_mem _ hf t _ hndc hclosed]
    rw [handle_isSome_iff_available cfg env tracked t htr]
  · intro env'
    unfold update_tracked_positions
    simp only []
    apply countP_filterMap_ticket_zero
    · exact fun u e h =>
        handle_position_closure_ticket cfg env' _ u e h
    · intro hmem
      exact hremoved (List.mem_of_mem_filter hmem)

/-- Witness for C9 (amended): one tracked ticket, gateway reports nothing
open and an exit deal in history — the pass emits exactly one event and
drops the ticket; the next pass emits none. -/
theorem C9_closure_once_and_removed_witness :
    ((update_tracked_positions ⟨7, 1⟩
        ⟨some [], fun _ => some [⟨1, 25, 120, false⟩], none⟩
        [(1, ⟨100, 90, 120, .BUY, 1, 0, 5, false⟩)]).2.countP
        (fun e => decide (e.ticket = 1)) =
      if closure_event_available
          ⟨some [], fun _ => some [⟨1, 25, 120, false⟩], none⟩ 1 then 1
      else 0) ∧
    1 ∉ (update_tracked_positions ⟨7, 1⟩
        ⟨some [], fun _ => some [⟨1, 25, 120, false⟩], none⟩
        [(1, ⟨100, 90, 120, .BUY, 1, 0, 5, false⟩)]).1.map Prod.fst ∧
    ∀ env' : ReconEnv,
      ((update_tracked_positions ⟨7, 1⟩ env'
          (update_tracked_positions ⟨7, 1⟩
            ⟨some [], fun _ => some [⟨1, 25, 120, false⟩], none⟩
            [(1, ⟨100, 90, 120, .BUY, 1, 0, 5, false⟩)]).1).2.countP
        (fun e => decide (e.ticket = 1))) = 0 :=
  C9_closure_once_and_removed ⟨7, 1⟩
    ⟨some [], fun _ => some [⟨1, 25, 120, false⟩], none⟩
    [(1, ⟨100, 90, 120, .BUY, 1, 0, 5, false⟩)] 1 (by simp) (by simp)
    (by simp)

/-! ## C5 / C8: signal engine gating -/

theorem getLast?_replicate_succ {α : Type} (n : ℕ) (a : α) :
    (List.replicate (n + 1) a).getLast? = some a := by
  induction n with
  | zero => rfl
  | succ m ih =>
    rw [List.replicate_succ, List.replicate_succ, List.getLast?_cons_cons,
      ← List.replicate_succ]
    exact ih

theorem df_200_getLast : df_200.getLast? = some flat_candle :=
  getLast?_replicate_succ 199 flat_candle

theorem df_60_getLast : df_60.getLast? = some monday_candle :=
  getLast?_replicate_succ 59 monday_candle

theorem fvg_rejection_signal_neutral (cfg : StrategyConfig)
    (df : List Candle) (zones : List FVGZone) :
    fvg_rejection_signal cfg df .NEUTRAL zones = none := by
  unfold fvg_rejection_signal
  split_ifs
  · rfl
  · cases df.getLast? <;> rfl

theorem fvg_rejection_signal_bull_side (cfg : StrategyConfig)
    (df : List Candle) (zones : List FVGZone) (sig : Signal)
    (zones' : List FVGZone)
    (h : fvg_rejection_signal cfg df .BULL zones = some (sig, zones')) :
    sig.side = .BUY := by
  unfold fvg_rejection_signal at h
  split_ifs at h
  split at h
  · exact absurd h (by simp)
  · split at h
    · dsimp only [] at h
      split at h
      · simp only [Option.some.injEq, Prod.mk.injEq] at h
        rw [← h.1]
      · exact absurd h (by simp)
    · rename_i heq
      exact absurd heq (by simp)
    · rename_i heq
      exact absurd heq (by simp)

theorem fvg_rejection_signal_bear_side (cfg : StrategyConfig)
    (df : List Candle) (zones : List FVGZone) (sig : Signal)
    (zones' : List FVGZone)
    (h : fvg_rejection_signal cfg df .BEAR zones = some (sig, zones')) :
    sig.side = .SELL := by
  unfold fvg_rejection_signal at h
  split_ifs at h
  split at h
  · exact absurd h (by simp)
  · split at h
    · rename_i heq
      exact absurd heq (by simp)
    · dsimp only [] at h
      split at h
      · simp only [Option.some.injEq, Prod.mk.injEq] at h
        rw [← h.1]
      · exact absurd h (by simp)
    · rename_i heq
      exact absurd heq (by simp)

/-- Claim C5, as stated, is false: with the SMC module disabled and the
source's default thresholds, a NEUTRAL bias is supplied and yet a BUY
signal is emitted from a 200-bar window whose snapshot satisfies all five
BUY rules (the bias argument does not suppress or zero anything on the
indicator path). -/
theorem C5_bias_counterexample :
    (analyze cfg_indicator_only snap_strong_buy df_200 (some .NEUTRAL)
        smc_state0).1 =
      some
        { side := .BUY, confidence := 1, conditions_met := 5,
          conditions_detail := [.EMA_CROSS, .ABOVE_TREND, .RSI_OVERSOLD,
            .STRONG_TREND, .STOCH_BULLISH] } := by
  have hw : ts_weekday 0 = 3 := by decide
  have hh : ts_hour 0 = 0 := by decide
  have hlen : df_200.length = 200 := by
    rw [df_200, List.length_replicate]
  rw [analyze]
  rw [if_neg (by rw [hlen]; norm_num)]
  rw [if_neg (by simp [cfg_indicator_only])]
  rw [evaluate_indicator_path, df_200_getLast]
  norm_num [cfg_indicator_only, flat_candle, buy_conditions, sell_conditions,
    add_condition, snap_strong_buy, is_signal_allowed, is_trend_filter_active,
    is_trend_filter_window_active, hw, hh, is_trend_flag]

/-- Claim C5 (amended): the bias argument gates only the SMC path — with
SMC disabled the analysis result is entirely independent of the supplied
bias (no conditions are zeroed); within the SMC path a NEUTRAL bias yields
no signal (hence none at all in smc_only mode), a BULL bias yields only
BUY signals and a BEAR bias only SELL signals. -/
theorem C5_bias_gates_only_smc (cfg : StrategyConfig)
    (snap : IndicatorSnapshot) (df : List Candle) (st : SMCState) :
    (cfg.smc_enabled = false → ∀ b1 b2 : Option Bias,
      analyze cfg snap df b1 st = analyze cfg snap df b2 st) ∧
    (∀ zones, fvg_rejection_signal cfg df .NEUTRAL zones = none) ∧
    (∀ zones sig zones',
      fvg_rejection_signal cfg df .BULL zones = some (sig, zones') →
      sig.side = .BUY) ∧
    (∀ zones sig zones',
      fvg_rejection_signal cfg df .BEAR zones = some (sig, zones') →
      sig.side = .SELL) ∧
    (cfg.smc_enabled = true → cfg.fvg_enabled = true → cfg.smc_only = true →
      (analyze cfg snap df (some .NEUTRAL) st).1 = none) := by
  refine ⟨?_, ?_, ?_, ?_, ?_⟩
  · intro h b1 b2
    simp [analyze, h]
  · intro zones
    exact fvg_rejection_signal_neutral cfg df zones
  · intro zones sig zones' h
    exact fvg_rejection_signal_bull_side cfg df zones sig zones' h
  · intro zones sig zones' h
    exact fvg_rejection_signal_bear_side cfg df zones sig zones' h
  · intro h1 h2 h3
    simp [analyze, h1, h2, h3, fvg_rejection_signal_neutral, apply_ite]

/-- Claim C8, as stated, is false: a 60-bar window — far shorter than the
200-bar longest configured period — still produces a BUY signal; the only
length gate in the code is the constant 50. -/
theorem C8_short_window_counterexample :
    df_60.length = 60 ∧ (60 : ℕ) < 200 ∧
      (analyze_from_rates cfg_indicator_only snap_nan_trend (some df_60) none
          smc_state0).1 =
        some
          { side := .BUY, confidence := 4 / 5, conditions_met := 4,
            conditions_detail := [.EMA_CROSS, .RSI_OVERSOLD, .STRONG_TREND,
              .STOCH_BULLISH] } := by
  have hw : ts_weekday 345600 = 0 := by decide
  have hlen : df_60.length = 60 := by
    rw [df_60, List.length_replicate]
  refine ⟨hlen, by norm_num, ?_⟩
  rw [analyze_from_rates]
  rw [if_neg (by rw [hlen]; norm_num)]
  rw [analyze]
  rw [if_neg (by rw [hlen]; norm_num)]
  rw [if_neg (by simp [cfg_indicator_only])]
  rw [evaluate_indicator_path, df_60_getLast]
  norm_num [cfg_indicator_only, monday_candle, buy_conditions,
    sell_conditions, add_condition, snap_nan_trend, is_signal_allowed,
    is_trend_filter_active, is_trend_filter_window_active, hw, is_trend_flag]

/-- Claim C8 (amended): the signal evaluation returns no signal for every
window shorter than 50 bars (and for an unavailable rates array); the
threshold is the constant 50 in both `analyze_from_rates` and `analyze`,
for the indicator path and the SMC path alike, not a bound derived from
the longest configured period. -/
theorem C8_short_window_no_signal (cfg : StrategyConfig)
    (snap : IndicatorSnapshot) (bias : Option Bias) (st : SMCState) :
    analyze_from_rates cfg snap none bias st = (none, st) ∧
    (∀ rs : List Candle, rs.length < 50 →
      analyze_from_rates cfg snap (some rs) bias st = (none, st)) ∧
    (∀ df : List Candle, df.length < 50 →
      analyze cfg snap df bias st = (none, st)) := by
  refine ⟨rfl, ?_, ?_⟩
  · intro rs h
    simp [analyze_from_rates, h]
  · intro df h
    simp [analyze, h]

end FusionBot
